import Mathlib

/-!
# Gazette: the application state machine of a terminal feed reader

A shallow embedding of `src/main.go` (the `Model` struct, `Update`, `View`,
`getTopStories`, `fetchStory`, `main`) together with the theorems that settle
the claims made about it.

Conventions of the embedding.

* A Go `tea.Cmd` is a request for asynchronous effects.  It is embedded as the
  finite list of the atomic effects it asks for: `nil` is the empty list,
  `tea.Quit` is `[Effect.quit]`, and `tea.Batch` concatenates.
* The widgets of the terminal toolkit (list, viewport, spinner), the HTML
  converter, the styled renderer and the HTTP client are external
  collaborators.  Their state is modelled as far as `main.go` reads or writes
  it; their `Update` functions and the converter are parameters (`Env`,
  `Http`), so every theorem holds whatever they compute.
* A Go `error` value is a `GoError`; `nil` is `none`.
-/

namespace Gazette

/-! ## Data model -/

/-- The struct `story` of main.go: one decoded feed item. -/
structure story where
  Id : Int
  Title : String
  Score : Int
  Url : String
  By : String
  Descendants : Int
  Kids : List Int
  Time : Int
  StoryType : String
deriving DecidableEq, Repr

/-- The method `story.FilterValue`. -/
def story.FilterValue (s : story) : String := s.Title

/-- The zero value of `story`, what `var s story` declares. -/
def story.zero : story :=
  { Id := 0, Title := "", Score := 0, Url := "", By := "", Descendants := 0,
    Kids := [], Time := 0, StoryType := "" }

/-- A Go `error` value: either an error produced by a library, carrying the text its
`Error()` method returns, or the wrapper `errMsg` of main.go around another error. -/
inductive GoError where
  | lib (text : String)
  | errMsg (err : GoError)
deriving DecidableEq, Repr

/-- The method `Error()`; for `errMsg` it is `e.err.Error()` as in main.go. -/
def GoError.Error : GoError → String
  | .lib text => text
  | .errMsg err => err.Error

/-- A byte slice (`[]byte`), also the bytes of the Go string `string(msg)`. -/
abbrev Bytes := List (Fin 256)

/-! ## Commands -/

/-- The atomic asynchronous effects a command can ask the runtime for. -/
inductive Effect where
  /-- The command `tea.Quit`, which terminates the program. -/
  | quit
  /-- The command `getTopStories`, the list fetch. -/
  | getTopStories
  /-- The closure returned by `Model.fetchStory`: a content fetch of `m.selected`. -/
  | fetchStory (selected : String)
  /-- The command `spinner.Tick`. -/
  | spinnerTick
  /-- Any other follow-up command handed back by a widget. -/
  | widget (tag : Nat)
deriving DecidableEq, Repr

/-- A `tea.Cmd`: the effects it requests; `nil` requests none. -/
abbrev Cmd := List Effect

/-- The nil command. -/
def teaNil : Cmd := []

/-- The command `tea.Quit`. -/
def teaQuit : Cmd := [Effect.quit]

/-- The function `tea.Batch(cmds...)`: all the effects of all the commands. -/
def teaBatch (cmds : List Cmd) : Cmd := cmds.foldr (fun c acc => c ++ acc) []

/-! ## Widgets (external; state modelled as far as main.go touches it) -/

/-- The filter state of the list widget (`list.FilterState`). -/
inductive FilterState where
  | Unfiltered
  | Filtering
  | FilterApplied
deriving DecidableEq, Repr

/-- Modelled from the spec: the List Widget (`list.Model` of the terminal toolkit, not
under src/), "an ordered, filterable collection of entries and a cursor" with "its own
navigation/filter state": the rows, the rows matching the filter, the filter state and
the cursor position. -/
structure ListModel where
  items : List story
  filteredItems : List story
  filterState : FilterState
  index : Nat
deriving DecidableEq, Repr

/-- Modelled from the spec: the rows the list widget shows (all rows unless a filter is
in use). -/
def ListModel.VisibleItems (l : ListModel) : List story :=
  if l.filterState = FilterState.Unfiltered then l.items else l.filteredItems

/-- Modelled from the spec: the highlighted row of the list widget, if there is one
(`SelectedItem()`; `none` is the nil item, for which the assertion `.(story)` fails). -/
def ListModel.SelectedItem (l : ListModel) : Option story :=
  l.VisibleItems.get? l.index

/-- Modelled from the spec: insertion of a row at a position of a slice; a position
past the end appends. -/
def insertItemIntoSlice (items : List story) (item : story) (index : Nat) : List story :=
  if index ≥ items.length then items ++ [item]
  else items.take index ++ item :: items.drop index

/-- Modelled from the spec: `InsertItem(index, item)` of the list widget, "one item per
entry": the row is inserted, cursor and filter state are kept. -/
def ListModel.InsertItem (l : ListModel) (index : Nat) (item : story) : ListModel :=
  { l with items := insertItemIntoSlice l.items item index }

/-- Modelled from the spec: `ResetSelected()` of the list widget, which puts the cursor
back on the first row. -/
def ListModel.ResetSelected (l : ListModel) : ListModel :=
  { l with index := 0 }

/-- Modelled from the spec: `FilterState()` of the list widget. -/
def ListModel.FilterState (l : ListModel) : FilterState := l.filterState

/-- The list built by `list.NewModel(listItems, ...)` in `main` from the empty slice. -/
def ListModel.NewModel : ListModel :=
  { items := [], filteredItems := [], filterState := FilterState.Unfiltered, index := 0 }

/-- Modelled from the spec: the Viewport Widget (`viewport.Model`, not under src/), which
"maintains scroll offset and visible window over rendered text". -/
structure ViewportModel where
  Width : Int
  Height : Int
  YPosition : Int
  YOffset : Nat
  lines : List String
deriving DecidableEq, Repr

/-- The lines of a text: the pieces between line feeds (never an empty list). -/
def splitLines : List Char → List (List Char)
  | [] => [[]]
  | c :: cs =>
    if c = Char.ofNat 10 then [] :: splitLines cs
    else
      match splitLines cs with
      | [] => [[c]]
      | l :: ls => (c :: l) :: ls

/-- Modelled from the spec: `GotoTop()` of the viewport, "reset Viewport scroll to top". -/
def ViewportModel.GotoTop (v : ViewportModel) : ViewportModel :=
  { v with YOffset := 0 }

/-- Modelled from the spec: `GotoBottom()` of the viewport: the last full window. -/
def ViewportModel.GotoBottom (v : ViewportModel) : ViewportModel :=
  { v with YOffset := ((v.lines.length : Int) - v.Height).toNat }

/-- Modelled from the spec: `SetContent(s)` of the viewport: the text is split into
lines, and an offset past the last line is pulled back to the bottom. -/
def ViewportModel.SetContent (v : ViewportModel) (s : String) : ViewportModel :=
  let v1 := { v with lines := (splitLines s.data).map String.mk }
  if (v1.YOffset : Int) > (v1.lines.length : Int) - 1 then v1.GotoBottom else v1

/-- The zero value of `viewport.Model`. -/
def ViewportModel.zero : ViewportModel :=
  { Width := 0, Height := 0, YPosition := 0, YOffset := 0, lines := [] }

/-- Modelled from the spec: the Busy Indicator (`spinner.Model`), which "owns an
animation frame counter". -/
structure SpinnerModel where
  frame : Nat
deriving DecidableEq, Repr

/-! ## Messages and the model -/

/-- The messages `Update` receives (`tea.Msg`). -/
inductive Msg where
  | WindowSizeMsg (Width Height : Int)
  | storiesMsg (stories : List story)
  | storyBytesMsg (bytes : Bytes)
  | errMsg (err : GoError)
  /-- A key press; `key` is `msg.String()`. -/
  | KeyMsg (key : String)
  /-- A `spinner.TickMsg`. -/
  | TickMsg (tag : Nat)
  /-- Any message of another type. -/
  | other (tag : Nat)
deriving DecidableEq, Repr

/-- The struct `Model` of main.go. -/
structure Model where
  stories : List story
  selected : String
  storyText : String
  loading : Bool
  viewportReady : Bool
  err : Option GoError
  list : ListModel
  spinner : SpinnerModel
  viewport : ViewportModel
deriving DecidableEq, Repr

/-- The external functions `Update` calls: the `Update` methods of the widgets, the HTML
converter (`converter.ConvertString`) and the styled renderer (`glamour.Render`, first
result). -/
structure Env where
  listUpdate : ListModel → Msg → ListModel × Cmd
  viewportUpdate : ViewportModel → Msg → ViewportModel × Cmd
  spinnerUpdate : SpinnerModel → Msg → SpinnerModel × Cmd
  ConvertString : Bytes → Except GoError String
  glamourRender : String → String

/-- A Go `int` result: the 64-bit two-complement value of an integer, which is the
integer itself when it is in range. -/
def wrapInt (x : Int) : Int := (x + 2 ^ 63) % 2 ^ 64 - 2 ^ 63

/-- The variable `headerHeight`. -/
def headerHeight : Int := 3

/-- The variable `footerHeight`. -/
def footerHeight : Int := 3

/-- The loop over `range m.stories` calling `m.list.InsertItem(i, story)`, started at
position `i`. -/
def insertStories (l : ListModel) (i : Nat) : List story → ListModel
  | [] => l
  | s :: rest => insertStories (l.InsertItem i s) (i + 1) rest

/-- The tail of `Update` after the switch: the message is forwarded to the list and to
the viewport, and their follow-up commands are batched after `spinner.Tick`. -/
def forward (env : Env) (m : Model) (msg : Msg) : Model × Cmd :=
  let lr := env.listUpdate m.list msg
  let m1 := { m with list := lr.1 }
  let vr := env.viewportUpdate m1.viewport msg
  let m2 := { m1 with viewport := vr.1 }
  (m2, teaBatch [[Effect.spinnerTick], lr.2, vr.2])

/-- The method `Model.fetchStory`: the content-fetch command over the current model. -/
def Model.fetchStory (m : Model) : Cmd := [Effect.fetchStory m.selected]

/-- The method `Model.Init`. -/
def Model.Init (_m : Model) : Cmd := [Effect.getTopStories]

/-- The method `Model.Update` of main.go. -/
def Update (env : Env) (m : Model) (msg : Msg) : Model × Cmd :=
  match msg with
  | .WindowSizeMsg w h =>
    let verticalMargins := headerHeight + footerHeight
    let m1 :=
      if !m.viewportReady then
        { m with
          viewport := { ViewportModel.zero with
                        Width := w, Height := wrapInt (h - verticalMargins),
                        YPosition := headerHeight + 1 },
          viewportReady := true }
      else
        { m with
          viewport := { m.viewport with Width := w, Height := wrapInt (h - verticalMargins) } }
    forward env m1 msg
  | .storiesMsg ss =>
    let m1 := { m with stories := ss, loading := false }
    ({ m1 with list := insertStories m1.list 0 m1.stories }, teaNil)
  | .storyBytesMsg bytes =>
    let m1 := { m with selected := "" }
    match env.ConvertString bytes with
    | .error err => ({ m1 with err := some err }, teaQuit)
    | .ok markdown =>
      let m2 := { m1 with storyText := markdown }
      let md := env.glamourRender m2.storyText
      ({ m2 with viewport := (m2.viewport.GotoTop).SetContent md }, teaNil)
  | .errMsg err =>
    ({ m with err := some (GoError.errMsg err) }, teaQuit)
  | .KeyMsg key =>
    if key = "ctrl+c" ∨ key = "q" then
      if m.list.FilterState = FilterState.Filtering then
        forward env m msg
      else if m.storyText ≠ "" then
        ({ m with storyText := "", list := m.list.ResetSelected }, teaNil)
      else
        (m, teaQuit)
    else if key = "enter" then
      let m1 :=
        match m.list.SelectedItem with
        | some i => { m with selected := i.Url }
        | none => m
      (m1, m1.fetchStory)
    else
      forward env m msg
  | .TickMsg _ =>
    let sr := env.spinnerUpdate m.spinner msg
    ({ m with spinner := sr.1 }, sr.2)
  | .other _ => forward env m msg

/-- What `View` returns: which branch ran, with the data it renders, or the run-time
panic it ends in.  Only the error branch is kept as the exact string returned; the
other strings are laid out by the styling library from the widget shown. -/
inductive Screen where
  /-- The branch `return m.err.Error()`. -/
  | errorText (text : String)
  /-- The branches `return listStyle.Render(m.list.View())`. -/
  | listView (l : ListModel)
  /-- The branch returning the window of the viewport followed by the footer. -/
  | pager (v : ViewportModel)
  /-- The branch returning the header, the spinner frame and the status line. -/
  | loadingScreen (s : SpinnerModel)
  /-- The final `return ""`. -/
  | blank
  /-- No string is returned: `strings.Repeat` was called with a negative count. -/
  | panic
deriving DecidableEq, Repr

/-- The display width of `footerMid`, `runewidth.StringWidth` of the text formatted by
`"┤ %3.f%% │"`: two columns, the three columns of the scroll percentage (a number from 0
to 100), and three more. -/
def footerMidWidth : Int := 8

/-- The method `Model.View` of main.go.  In the viewport branch the footer is padded
with `strings.Repeat(.., gapSize)` where `gapSize` is the width of the viewport less
that of `footerMid`; a negative count makes `strings.Repeat` panic.  (A width below the
range in which the subtraction is exact gives a count no string can have, so that case
ends in a panic as well.) -/
def View (m : Model) : Screen :=
  match m.err with
  | some e => Screen.errorText e.Error
  | none =>
    if m.selected ≠ "" then Screen.listView m.list
    else if m.storyText ≠ "" then
      let gapSize := m.viewport.Width - footerMidWidth
      if gapSize < 0 then Screen.panic else Screen.pager m.viewport
    else if m.loading then Screen.loadingScreen m.spinner
    else if m.stories.length > 0 then Screen.listView m.list
    else Screen.blank

/-- The model `main` starts the program with. -/
def initialModel : Model :=
  { stories := [], selected := "", storyText := "", loading := true,
    viewportReady := false, err := none,
    spinner := { frame := 0 }, list := ListModel.NewModel,
    viewport := ViewportModel.zero }

/-! ## Mode -/

/-- The top-level display state of the application. -/
inductive Mode where
  | Loading
  | Listing
  | Viewing
  | Failed
deriving DecidableEq, Repr

/-- Modelled from the spec: Mode as "a pure function of that triple plus an error flag":
`Failed` once an error is stored, otherwise `Viewing` when DisplayText is present,
otherwise `Loading` until the entries are loaded, otherwise `Listing`. -/
def mode (m : Model) : Mode :=
  if m.err ≠ none then Mode.Failed
  else if m.storyText ≠ "" then Mode.Viewing
  else if m.loading then Mode.Loading
  else Mode.Listing

/-- The state after a sequence of messages, each handled by `Update` in turn. -/
def run (env : Env) (m : Model) : List Msg → Model
  | [] => m
  | msg :: rest => run env (Update env m msg).1 rest

/-! ## The fetch commands -/

/-- An HTTP response as the program uses it. -/
structure Response where
  StatusCode : Int
  Body : Bytes
deriving DecidableEq, Repr

/-- The network and the decoders, as seen by the two fetch commands.  `Get` is
`http.Get` / `c.Get`: `Except.error e` stands for the result `(nil, e)`.  `ReadAll` is
`ioutil.ReadAll(res.Body)`.  `decodeIds` is the value of `storyIds` after
`Decode(&storyIds)` and `decodeStory` the value of `s` after `Decode(&s)` on a zero
story; in both the error returned by `Decode` is dropped by the program. -/
structure Http where
  Get : String → Except GoError Response
  ReadAll : Response → Bytes × Option GoError
  decodeIds : Response → List Int
  decodeStory : Response → story

/-- What running a command gives: a message for `Update`, or a run-time panic. -/
inductive Outcome where
  | msg (m : Msg)
  | panic
deriving DecidableEq, Repr

/-- The constant `topStoriesURL`. -/
def topStoriesURL : String :=
  "https://hacker-news.firebaseio.com/v0/topstories.json?print=pretty&limitToFirst=30&orderBy=%22$key%22"

/-- The item URL built with `strings.Join` and `strconv.Itoa` in `getTopStories`. -/
def storyURL (id : Int) : String :=
  String.join ["https://hacker-news.firebaseio.com/v0/item/", toString id, ".json"]

/-- The loop of `getTopStories` over the remaining identifiers, `stories` being the
slice appended to so far. -/
def getTopStoriesLoop (http : Http) : List Int → List story → Msg
  | [], stories => Msg.storiesMsg stories
  | id :: rest, stories =>
    match http.Get (storyURL id) with
    | .error err => Msg.errMsg err
    | .ok r => getTopStoriesLoop http rest (stories ++ [http.decodeStory r])

/-- The function `getTopStories` of main.go. -/
def getTopStories (http : Http) : Msg :=
  match http.Get topStoriesURL with
  | .error err => Msg.errMsg err
  | .ok r => getTopStoriesLoop http (http.decodeIds r) []

/-- The closure returned by `Model.fetchStory`, run for the captured `m.selected`.  The
error of `http.Get` is discarded (`res, _ :=`), so after a failed request `res` is nil and
reading `res.Body` panics.  The error of `ReadAll` is written to the copy of the model
owned by the closure, which nobody reads: the bytes are returned either way. -/
def fetchStoryRun (http : Http) (selected : String) : Outcome :=
  match http.Get selected with
  | .error _ => Outcome.panic
  | .ok res => Outcome.msg (Msg.storyBytesMsg (http.ReadAll res).1)

/-! ## Sample collaborators and inputs -/

/-- Widgets that keep their state and hand back no command, a converter that returns
its input as text (what the HTML converter does with markup-free text, the empty
document included), and a renderer that returns its input. -/
def quietEnv : Env :=
  { listUpdate := fun l _ => (l, [])
    viewportUpdate := fun v _ => (v, [])
    spinnerUpdate := fun s _ => (s, [])
    ConvertString := fun b => .ok (String.mk (b.map (fun x => Char.ofNat x.val)))
    glamourRender := fun s => s }

/-- As `quietEnv`, with a list widget that answers the key `ctrl+c` with the quit
command, as the force-quit binding of the list widget does, also while filtering. -/
def forceQuitEnv : Env :=
  { quietEnv with
    listUpdate := fun l msg => if msg = Msg.KeyMsg "ctrl+c" then (l, teaQuit) else (l, []) }

/-- A sample entry. -/
def storyA : story :=
  { story.zero with Id := 1, Title := "A", Url := "http://a.example" }

/-- A second sample entry. -/
def storyB : story :=
  { story.zero with Id := 2, Title := "B", Url := "http://b.example" }

/-- A sample entry whose URL is empty. -/
def storyC : story :=
  { story.zero with Id := 3, Title := "C", Url := "" }

/-- The state after the list fetch delivered two entries: `Listing`, first row
highlighted. -/
def listingModel : Model :=
  (Update quietEnv initialModel (Msg.storiesMsg [storyA, storyB])).1

/-- The state after the content of the first row arrived: `Viewing`. -/
def viewingModel : Model :=
  run quietEnv listingModel [Msg.KeyMsg "enter", Msg.storyBytesMsg [104, 105]]

/-- The `Viewing` state with the list widget in filtering state. -/
def filteringViewingModel : Model :=
  { viewingModel with
    list := { viewingModel.list with filterState := FilterState.Filtering } }

/-- The `Listing` state with the list widget in filtering state. -/
def filteringListingModel : Model :=
  { listingModel with
    list := { listingModel.list with filterState := FilterState.Filtering } }

/-- A network on which the index lists 1, 2, 3 and every item request succeeds; the
request for the empty URL fails with no response, as `http.Get` does for a URL without
a scheme. -/
def sampleHttp : Http :=
  { Get := fun url =>
      if url = "" then .error (GoError.lib "unsupported protocol scheme")
      else if url = topStoriesURL then .ok { StatusCode := 200, Body := [0] }
      else if url = storyURL 1 then .ok { StatusCode := 200, Body := [1] }
      else if url = storyURL 2 then .ok { StatusCode := 200, Body := [2] }
      else .ok { StatusCode := 200, Body := [3] }
    ReadAll := fun r => (r.Body, none)
    decodeIds := fun r => if r.Body = [0] then [1, 2, 3] else []
    decodeStory := fun r =>
      if r.Body = [1] then storyA else if r.Body = [2] then storyB else storyC }

/-- As `sampleHttp`, but the request for item 2 fails. -/
def failingHttp : Http :=
  { sampleHttp with
    Get := fun url =>
      if url = storyURL 2 then .error (GoError.lib "timeout") else sampleHttp.Get url }

/-! ## Helper lemmas -/

/-- Insertion at the position just past the last row appends. -/
theorem insertItemIntoSlice_length (items : List story) (item : story) :
    insertItemIntoSlice items item items.length = items ++ [item] := by
  simp [insertItemIntoSlice]

/-- The insertion loop started at the current number of rows appends the entries in
order. -/
theorem insertStories_items (ss : List story) :
    ∀ (l : ListModel) (i : Nat), i = l.items.length →
      (insertStories l i ss).items = l.items ++ ss := by
  induction ss with
  | nil => intro l i _; simp [insertStories]
  | cons s rest ih =>
    intro l i hi
    subst hi
    have h := ih (l.InsertItem l.items.length s) (l.items.length + 1)
      (by simp [ListModel.InsertItem, insertItemIntoSlice_length])
    simpa [insertStories, ListModel.InsertItem, insertItemIntoSlice_length] using h

/-- When every remaining item request succeeds the loop appends one decoded record per
identifier, in order. -/
theorem getTopStoriesLoop_ok (http : Http) (resp : Int → Response) (ids : List Int) :
    ∀ acc : List story, (∀ id ∈ ids, http.Get (storyURL id) = .ok (resp id)) →
      getTopStoriesLoop http ids acc
        = Msg.storiesMsg (acc ++ ids.map (fun id => http.decodeStory (resp id))) := by
  induction ids with
  | nil => intro acc _; simp [getTopStoriesLoop]
  | cons id rest ih =>
    intro acc h
    have h1 := h id (by simp)
    have h2 := ih (acc ++ [http.decodeStory (resp id)]) (fun j hj => h j (by simp [hj]))
    simp [getTopStoriesLoop, h1, h2]

/-- When some remaining item request fails the loop returns the error of a failed
request. -/
theorem getTopStoriesLoop_fail (http : Http) (ids : List Int) :
    ∀ acc : List story, (∃ id ∈ ids, ∃ e, http.Get (storyURL id) = .error e) →
      ∃ id ∈ ids, ∃ e, http.Get (storyURL id) = .error e ∧
        getTopStoriesLoop http ids acc = Msg.errMsg e := by
  induction ids with
  | nil => intro acc h; obtain ⟨id, hid, _⟩ := h; simp at hid
  | cons id rest ih =>
    intro acc h
    cases hg : http.Get (storyURL id) with
    | error e => exact ⟨id, by simp, e, hg, by simp [getTopStoriesLoop, hg]⟩
    | ok r =>
      have h2 : ∃ j ∈ rest, ∃ e, http.Get (storyURL j) = .error e := by
        obtain ⟨j, hj, e, he⟩ := h
        rcases List.mem_cons.mp hj with hjeq | hjr
        · subst hjeq; rw [hg] at he; cases he
        · exact ⟨j, hjr, e, he⟩
      obtain ⟨j, hj, e, he, hr⟩ := ih (acc ++ [http.decodeStory r]) h2
      exact ⟨j, List.mem_cons_of_mem _ hj, e, he, by simp [getTopStoriesLoop, hg, hr]⟩

/-- The fields of a state in `Listing`. -/
theorem mode_listing (m : Model) (h : mode m = Mode.Listing) :
    m.err = none ∧ m.storyText = "" ∧ m.loading = false := by
  unfold mode at h
  split at h
  · cases h
  · split at h
    · cases h
    · split at h
      · cases h
      · simp_all

/-- The fields of a state in `Viewing`. -/
theorem mode_viewing (m : Model) (h : mode m = Mode.Viewing) :
    m.err = none ∧ m.storyText ≠ "" := by
  unfold mode at h
  split at h
  · cases h
  · split at h
    · simp_all
    · split at h <;> cases h

/-- The mode depends on the error, the text and the loading flag only. -/
theorem mode_congr (m m1 : Model) (herr : m1.err = m.err) (htext : m1.storyText = m.storyText)
    (hload : m1.loading = m.loading) : mode m1 = mode m := by
  simp [mode, herr, htext, hload]

/-- The forwarding tail of `Update` writes the list and viewport widgets only. -/
theorem forward_fields (env : Env) (m : Model) (msg : Msg) :
    (forward env m msg).1.stories = m.stories ∧
    (forward env m msg).1.selected = m.selected ∧
    (forward env m msg).1.storyText = m.storyText ∧
    (forward env m msg).1.loading = m.loading ∧
    (forward env m msg).1.viewportReady = m.viewportReady ∧
    (forward env m msg).1.err = m.err ∧
    (forward env m msg).1.spinner = m.spinner := by
  simp [forward]

/-- The command of the forwarding tail: the spinner tick, then what the widgets return. -/
theorem forward_cmd (env : Env) (m : Model) (msg : Msg) :
    (forward env m msg).2
      = Effect.spinnerTick
          :: ((env.listUpdate m.list msg).2 ++ (env.viewportUpdate m.viewport msg).2) := by
  simp [forward, teaBatch]

/-- A key other than the quit and confirm keys goes to the forwarding tail. -/
theorem Update_navigation_key (env : Env) (m : Model) (k : String)
    (hq : k ≠ "q") (hc : k ≠ "ctrl+c") (he : k ≠ "enter") :
    Update env m (Msg.KeyMsg k) = forward env m (Msg.KeyMsg k) := by
  simp [Update, hq, hc, he]

/-! ## The list fetch result (C3) -/

/-- C3: `Update` with `storiesMsg(entries)`, applied to a state whose list widget has no
rows (as the startup state), yields a state whose list widget holds exactly the rows
`entries`: the same number, the i-th row being the i-th entry, with `stories` equal to
`entries`, `loading` false and the mode not `Loading` (it is `Listing` when no error
and no text were stored). -/
theorem C3_storiesMsg_populates_list (env : Env) (m : Model) (entries : List story)
    (hempty : m.list.items = []) :
    (Update env m (Msg.storiesMsg entries)).1.list.items = entries ∧
    (Update env m (Msg.storiesMsg entries)).1.list.items.length = entries.length ∧
    (∀ i : Nat, (Update env m (Msg.storiesMsg entries)).1.list.items.get? i
        = entries.get? i) ∧
    (Update env m (Msg.storiesMsg entries)).1.stories = entries ∧
    (Update env m (Msg.storiesMsg entries)).1.loading = false ∧
    mode (Update env m (Msg.storiesMsg entries)).1 ≠ Mode.Loading ∧
    (m.err = none → m.storyText = "" →
      mode (Update env m (Msg.storiesMsg entries)).1 = Mode.Listing) := by
  have hitems : (Update env m (Msg.storiesMsg entries)).1.list.items = entries := by
    have h := insertStories_items entries m.list 0 (by simp [hempty])
    simpa [Update, hempty] using h
  refine ⟨hitems, by rw [hitems], fun i => by rw [hitems], rfl, rfl, ?_, ?_⟩
  · simp only [Update, mode]
    split
    · simp
    · split <;> simp
  · intro herr htext
    simp [Update, mode, herr, htext]

/-- The startup state of `main` receiving three entries: three rows, in order. -/
theorem C3_storiesMsg_populates_list_witness :
    initialModel.list.items = [] ∧
    (Update quietEnv initialModel (Msg.storiesMsg [storyA, storyB, storyC])).1.list.items
      = [storyA, storyB, storyC] ∧
    mode (Update quietEnv initialModel (Msg.storiesMsg [storyA, storyB, storyC])).1
      = Mode.Listing :=
  ⟨rfl,
   (C3_storiesMsg_populates_list quietEnv initialModel [storyA, storyB, storyC] rfl).1,
   (C3_storiesMsg_populates_list quietEnv initialModel
      [storyA, storyB, storyC] rfl).2.2.2.2.2.2 rfl rfl⟩

/-! ## Failure (C4) -/

/-- C4: for every state and every error `e`, `Update` with `errMsg(e)` stores the
error (the state is `Failed`), and `View` of the new state is exactly the error text of
`e`, whatever the other fields hold. -/
theorem C4_errMsg_failed_view (env : Env) (m : Model) (e : GoError) :
    (Update env m (Msg.errMsg e)).1.err = some (GoError.errMsg e) ∧
    (GoError.errMsg e).Error = e.Error ∧
    mode (Update env m (Msg.errMsg e)).1 = Mode.Failed ∧
    View (Update env m (Msg.errMsg e)).1 = Screen.errorText e.Error := by
  simp [Update, mode, View, GoError.Error]

/-! ## The list fetch (C10) -/

/-- C10: when the index request succeeds, then (a) if every item request succeeds,
`getTopStories` returns a `storiesMsg` with one entry per identifier of the index, the
i-th being the record decoded from the response for the i-th identifier; and (b) if
some item request fails, it returns an `errMsg` carrying the error of a failed item
request, and no entries. -/
theorem C10_getTopStories_order (http : Http) (index : Response)
    (hindex : http.Get topStoriesURL = .ok index) :
    (∀ resp : Int → Response,
      (∀ id ∈ http.decodeIds index, http.Get (storyURL id) = .ok (resp id)) →
        getTopStories http
          = Msg.storiesMsg ((http.decodeIds index).map (fun id => http.decodeStory (resp id))) ∧
        ((http.decodeIds index).map (fun id => http.decodeStory (resp id))).length
          = (http.decodeIds index).length ∧
        ∀ i : Nat, ((http.decodeIds index).map (fun id => http.decodeStory (resp id))).get? i
          = ((http.decodeIds index).get? i).map (fun id => http.decodeStory (resp id))) ∧
    ((∃ id ∈ http.decodeIds index, ∃ e, http.Get (storyURL id) = .error e) →
      ∃ id ∈ http.decodeIds index, ∃ e, http.Get (storyURL id) = .error e ∧
        getTopStories http = Msg.errMsg e) := by
  constructor
  · intro resp hitems
    refine ⟨?_, by simp, fun i => by simp⟩
    have h := getTopStoriesLoop_ok http resp (http.decodeIds index) [] hitems
    simpa [getTopStories, hindex] using h
  · intro hfail
    obtain ⟨id, hid, e, he, hr⟩ := getTopStoriesLoop_fail http (http.decodeIds index) [] hfail
    exact ⟨id, hid, e, he, by simpa [getTopStories, hindex] using hr⟩

/-- The index lists 1, 2, 3 and the three item requests succeed: three entries, in
index order. -/
theorem C10_getTopStories_order_witness :
    sampleHttp.Get topStoriesURL = .ok { StatusCode := 200, Body := [0] } ∧
    getTopStories sampleHttp = Msg.storiesMsg [storyA, storyB, storyC] :=
  ⟨rfl,
   ((C10_getTopStories_order sampleHttp { StatusCode := 200, Body := [0] } rfl).1
      (fun id => { StatusCode := 200, Body := [Fin.ofNat id.toNat] })
      (by
        intro id hid
        have hmem : id = 1 ∨ id = 2 ∨ id = 3 := by simpa [sampleHttp] using hid
        rcases hmem with h | h | h <;> subst h <;> rfl)).1.trans (by decide)⟩

/-! ## The content fetch command (C5) -/

/-- C5: the content-fetch command for the empty URL, on a network whose GET for it
returns an error and no response, panics; and on no network and for no URL does the
command ever return an `errMsg`. -/
theorem C5_fetchStory_empty_url_panics :
    sampleHttp.Get "" = .error (GoError.lib "unsupported protocol scheme") ∧
    fetchStoryRun sampleHttp "" = Outcome.panic ∧
    (∀ (http : Http) (url : String) (e : GoError),
      fetchStoryRun http url ≠ Outcome.msg (Msg.errMsg e)) := by
  refine ⟨rfl, by decide, ?_⟩
  intro http url e
  unfold fetchStoryRun
  split <;> simp

/-! ## Selecting an entry and receiving its content (C1, C6, C7) -/

/-- C6, as stated, fails: in the state reached from `Listing` by the confirm key, a
content fetch is outstanding (Selection is non-empty, no content has arrived), and a
second confirm key emits a further content-fetch command. -/
theorem C6_counterexample_second_fetch :
    (Update quietEnv listingModel (Msg.KeyMsg "enter")).2
      = [Effect.fetchStory "http://a.example"] ∧
    (Update quietEnv listingModel (Msg.KeyMsg "enter")).1.selected ≠ "" ∧
    (Update quietEnv (Update quietEnv listingModel (Msg.KeyMsg "enter")).1
        (Msg.KeyMsg "enter")).2
      = [Effect.fetchStory "http://a.example"] := by
  decide

/-- C6 (amended): the confirm key is not gated on an outstanding fetch: in every state
`Update` with the confirm key emits exactly one content-fetch command, for the new
Selection, which is the URL of the highlighted entry, or the old Selection when no
entry is highlighted; no other field changes. -/
theorem C6_enter_always_fetches (env : Env) (m : Model) :
    (Update env m (Msg.KeyMsg "enter")).2
      = [Effect.fetchStory (Update env m (Msg.KeyMsg "enter")).1.selected] ∧
    (Update env m (Msg.KeyMsg "enter")).1
      = { m with selected := match m.list.SelectedItem with
                             | some i => i.Url
                             | none => m.selected } := by
  cases h : m.list.SelectedItem <;> simp [Update, Model.fetchStory, h]

/-- C7, as stated, fails: in the `Listing` state with empty Selection and empty
DisplayText, the content message for the bytes of `hi` stores the text `hi`, puts it
in the viewport and leaves the state in `Viewing`. -/
theorem C7_counterexample_stale_content :
    mode listingModel = Mode.Listing ∧
    listingModel.selected = "" ∧ listingModel.storyText = "" ∧
    (Update quietEnv listingModel (Msg.storyBytesMsg [104, 105])).1.storyText = "hi" ∧
    mode (Update quietEnv listingModel (Msg.storyBytesMsg [104, 105])).1 = Mode.Viewing ∧
    (Update quietEnv listingModel (Msg.storyBytesMsg [104, 105])).1.viewport
      ≠ listingModel.viewport := by
  decide

/-- C7 (amended): a content result is never discarded: for every state, whatever its
Selection, and every byte sequence whose conversion succeeds, `Update` with the content
message stores the converted text as `storyText`, empties Selection, puts the rendering
of the text in the viewport at scroll offset zero and emits no command; the new state is
in `Viewing` when no error was stored and the text is not empty. -/
theorem C7_content_always_stored (env : Env) (m : Model) (bytes : Bytes) (text : String)
    (hconv : env.ConvertString bytes = .ok text) :
    Update env m (Msg.storyBytesMsg bytes)
      = ({ m with selected := "", storyText := text,
                  viewport := (m.viewport.GotoTop).SetContent (env.glamourRender text) },
         teaNil) ∧
    (m.err = none → text ≠ "" →
      mode (Update env m (Msg.storyBytesMsg bytes)).1 = Mode.Viewing) := by
  have hup : Update env m (Msg.storyBytesMsg bytes)
      = ({ m with selected := "", storyText := text,
                  viewport := (m.viewport.GotoTop).SetContent (env.glamourRender text) },
         teaNil) := by
    simp [Update, hconv]
  refine ⟨hup, ?_⟩
  intro herr htext
  rw [hup]
  simp [mode, herr, htext]

/-- The content `hi` arrives in `Listing` with nothing selected: the state is `Viewing`. -/
theorem C7_content_always_stored_witness :
    quietEnv.ConvertString [104, 105] = .ok "hi" ∧
    mode (Update quietEnv listingModel (Msg.storyBytesMsg [104, 105])).1 = Mode.Viewing :=
  ⟨rfl,
   (C7_content_always_stored quietEnv listingModel [104, 105] "hi" rfl).2
      (by decide) (by decide)⟩

/-! ## The quit key (C2, C9) -/

/-- C2, as stated, fails in two ways.  With the list widget filtering, the quit key
leaves a `Viewing` state in `Viewing`, its text kept.  And in the `Viewing` state in
which the confirm key was pressed again (DisplayText present, a new Selection stored),
the quit key empties DisplayText but leaves Selection in place. -/
theorem C2_counterexample_filtering_and_selection :
    (mode filteringViewingModel = Mode.Viewing ∧
      mode (Update quietEnv filteringViewingModel (Msg.KeyMsg "q")).1 = Mode.Viewing ∧
      (Update quietEnv filteringViewingModel (Msg.KeyMsg "q")).1.storyText = "hi") ∧
    (mode (Update quietEnv viewingModel (Msg.KeyMsg "enter")).1 = Mode.Viewing ∧
      (Update quietEnv (Update quietEnv viewingModel (Msg.KeyMsg "enter")).1
          (Msg.KeyMsg "q")).1.storyText = "" ∧
      (Update quietEnv (Update quietEnv viewingModel (Msg.KeyMsg "enter")).1
          (Msg.KeyMsg "q")).1.selected = "http://a.example") := by
  decide

/-- C2 (amended): for every state in `Viewing` with the entries loaded, Selection empty
and the list widget not filtering, `Update` with the quit key (`q` or `ctrl+c`) yields a
state in `Listing` in which `selected` and `storyText` are both empty and the cursor of
the list widget is back on the first row; nothing else changes, and no command, so no
quit command, is emitted. -/
theorem C2_quit_while_viewing (env : Env) (m : Model) (key : String)
    (hkey : key = "q" ∨ key = "ctrl+c")
    (hmode : mode m = Mode.Viewing)
    (hloaded : m.loading = false)
    (hsel : m.selected = "")
    (hfilter : m.list.FilterState ≠ FilterState.Filtering) :
    Update env m (Msg.KeyMsg key)
      = ({ m with storyText := "", list := m.list.ResetSelected }, teaNil) ∧
    mode (Update env m (Msg.KeyMsg key)).1 = Mode.Listing ∧
    (Update env m (Msg.KeyMsg key)).1.selected = "" ∧
    (Update env m (Msg.KeyMsg key)).1.storyText = "" ∧
    (Update env m (Msg.KeyMsg key)).1.list.index = 0 ∧
    (Update env m (Msg.KeyMsg key)).1.list.items = m.list.items ∧
    Effect.quit ∉ (Update env m (Msg.KeyMsg key)).2 := by
  obtain ⟨herr, htext⟩ := mode_viewing m hmode
  have hk : key = "ctrl+c" ∨ key = "q" := hkey.symm
  have hup : Update env m (Msg.KeyMsg key)
      = ({ m with storyText := "", list := m.list.ResetSelected }, teaNil) := by
    simp [Update, hk, hfilter, htext]
  rw [hup]
  refine ⟨rfl, ?_, hsel, rfl, rfl, rfl, ?_⟩
  · simp [mode, herr, hloaded]
  · simp [teaNil]

/-- The key `q` in the `Viewing` state reached from the first row: back in `Listing`. -/
theorem C2_quit_while_viewing_witness :
    mode viewingModel = Mode.Viewing ∧
    mode (Update quietEnv viewingModel (Msg.KeyMsg "q")).1 = Mode.Listing ∧
    (Update quietEnv viewingModel (Msg.KeyMsg "q")).1.storyText = "" :=
  ⟨by decide,
   (C2_quit_while_viewing quietEnv viewingModel "q" (Or.inl rfl)
      (by decide) (by decide) (by decide) (by decide)).2.1,
   (C2_quit_while_viewing quietEnv viewingModel "q" (Or.inl rfl)
      (by decide) (by decide) (by decide) (by decide)).2.2.2.1⟩

/-- C9, as stated, fails in its second part: with the list widget filtering, the key
`ctrl+c` is forwarded to the list widget, and when that widget answers it with the quit
command (its force-quit binding), the command `Update` returns contains the quit
command. -/
theorem C9_counterexample_widget_quit :
    filteringListingModel.list.FilterState = FilterState.Filtering ∧
    mode filteringListingModel = Mode.Listing ∧
    (Update forceQuitEnv filteringListingModel (Msg.KeyMsg "ctrl+c")).2
      = [Effect.spinnerTick, Effect.quit] ∧
    Effect.quit ∈ (Update forceQuitEnv filteringListingModel (Msg.KeyMsg "ctrl+c")).2 := by
  decide

/-- C9 (amended): for the quit key (`q` or `ctrl+c`): (a) in every state with
DisplayText empty whose list widget is not filtering, `Update` leaves the state as it is
and returns exactly the quit command; (b) in every state whose list widget is filtering,
the key is forwarded to the list and viewport widgets, no state-machine field (entries,
Selection, DisplayText, loading flag, viewport-ready flag, error, spinner) changes, and
the command returned is the spinner tick followed by the follow-up commands of the two
widgets, so it contains the quit command only if a widget asked for it. -/
theorem C9_quit_key (env : Env) (m : Model) (key : String)
    (hkey : key = "q" ∨ key = "ctrl+c") :
    (m.storyText = "" → m.list.FilterState ≠ FilterState.Filtering →
      Update env m (Msg.KeyMsg key) = (m, teaQuit)) ∧
    (m.list.FilterState = FilterState.Filtering →
      (Update env m (Msg.KeyMsg key)).1.stories = m.stories ∧
      (Update env m (Msg.KeyMsg key)).1.selected = m.selected ∧
      (Update env m (Msg.KeyMsg key)).1.storyText = m.storyText ∧
      (Update env m (Msg.KeyMsg key)).1.loading = m.loading ∧
      (Update env m (Msg.KeyMsg key)).1.viewportReady = m.viewportReady ∧
      (Update env m (Msg.KeyMsg key)).1.err = m.err ∧
      (Update env m (Msg.KeyMsg key)).1.spinner = m.spinner ∧
      mode (Update env m (Msg.KeyMsg key)).1 = mode m ∧
      (Update env m (Msg.KeyMsg key)).1.list = (env.listUpdate m.list (Msg.KeyMsg key)).1 ∧
      (Update env m (Msg.KeyMsg key)).1.viewport
        = (env.viewportUpdate m.viewport (Msg.KeyMsg key)).1 ∧
      (Update env m (Msg.KeyMsg key)).2
        = Effect.spinnerTick
            :: ((env.listUpdate m.list (Msg.KeyMsg key)).2
                ++ (env.viewportUpdate m.viewport (Msg.KeyMsg key)).2) ∧
      (Effect.quit ∈ (Update env m (Msg.KeyMsg key)).2 ↔
        Effect.quit ∈ (env.listUpdate m.list (Msg.KeyMsg key)).2 ∨
        Effect.quit ∈ (env.viewportUpdate m.viewport (Msg.KeyMsg key)).2)) := by
  have hk : key = "ctrl+c" ∨ key = "q" := hkey.symm
  constructor
  · intro htext hfilter
    simp [Update, hk, hfilter, htext]
  · intro hfilter
    have hup : Update env m (Msg.KeyMsg key) = forward env m (Msg.KeyMsg key) := by
      simp [Update, hk, hfilter]
    obtain ⟨h1, h2, h3, h4, h5, h6, h7⟩ := forward_fields env m (Msg.KeyMsg key)
    have hc := forward_cmd env m (Msg.KeyMsg key)
    rw [hup]
    refine ⟨h1, h2, h3, h4, h5, h6, h7, mode_congr _ _ h6 h3 h4, rfl, rfl, hc, ?_⟩
    rw [hc]
    simp

/-- The key `q` in `Listing`: the quit command when the list is not filtering, the text
untouched when it is. -/
theorem C9_quit_key_witness :
    (Update quietEnv listingModel (Msg.KeyMsg "q")) = (listingModel, teaQuit) ∧
    (Update quietEnv filteringListingModel (Msg.KeyMsg "q")).1.storyText
      = filteringListingModel.storyText :=
  ⟨(C9_quit_key quietEnv listingModel "q" (Or.inl rfl)).1 (by decide) (by decide),
   ((C9_quit_key quietEnv filteringListingModel "q" (Or.inl rfl)).2 (by decide)).2.2.1⟩

/-! ## Navigation keys (C8) -/

/-- A sequence of navigation keys leaves the state-machine fields as they are. -/
theorem run_navigation_keys (env : Env) (keys : List String) :
    ∀ m : Model, (∀ k ∈ keys, k ≠ "q" ∧ k ≠ "ctrl+c" ∧ k ≠ "enter") →
      (run env m (keys.map Msg.KeyMsg)).stories = m.stories ∧
      (run env m (keys.map Msg.KeyMsg)).selected = m.selected ∧
      (run env m (keys.map Msg.KeyMsg)).storyText = m.storyText ∧
      (run env m (keys.map Msg.KeyMsg)).loading = m.loading ∧
      (run env m (keys.map Msg.KeyMsg)).err = m.err := by
  induction keys with
  | nil => intro m _; simp [run]
  | cons k rest ih =>
    intro m hk
    obtain ⟨hq, hc, he⟩ := hk k (by simp)
    obtain ⟨h1, h2, h3, h4, _, h6, _⟩ := forward_fields env m (Msg.KeyMsg k)
    obtain ⟨r1, r2, r3, r4, r5⟩ :=
      ih (forward env m (Msg.KeyMsg k)).1 (fun j hj => hk j (by simp [hj]))
    simp only [List.map_cons, run, Update_navigation_key env m k hq hc he]
    exact ⟨r1.trans h1, r2.trans h2, r3.trans h3, r4.trans h4, r5.trans h6⟩

/-- C8: for every state in `Listing` with Selection empty and every finite sequence of
key events other than the quit keys (`q`, `ctrl+c`) and the confirm key (`enter`),
whatever the list and viewport widgets do with the keys, the state after every prefix of
the sequence (every intermediate state and the final one) is in `Listing`, with
`selected` and `storyText` empty, no error, and the entries unchanged. -/
theorem C8_navigation_keeps_listing (env : Env) (m : Model) (keys : List String)
    (hmode : mode m = Mode.Listing)
    (hsel : m.selected = "")
    (hkeys : ∀ k ∈ keys, k ≠ "q" ∧ k ≠ "ctrl+c" ∧ k ≠ "enter") :
    ∀ n : Nat,
      mode (run env m ((keys.take n).map Msg.KeyMsg)) = Mode.Listing ∧
      (run env m ((keys.take n).map Msg.KeyMsg)).selected = "" ∧
      (run env m ((keys.take n).map Msg.KeyMsg)).storyText = "" ∧
      (run env m ((keys.take n).map Msg.KeyMsg)).err = none ∧
      (run env m ((keys.take n).map Msg.KeyMsg)).stories = m.stories := by
  intro n
  obtain ⟨herr, htext, _⟩ := mode_listing m hmode
  obtain ⟨r1, r2, r3, r4, r5⟩ :=
    run_navigation_keys env (keys.take n) m (fun k hk => hkeys k (List.mem_of_mem_take hk))
  refine ⟨?_, r2.trans hsel, r3.trans htext, r5.trans herr, r1⟩
  rw [mode_congr m _ r5 r3 r4]
  exact hmode

/-- Five navigation and filter keys in `Listing`, with a list widget that may ask to
quit: the state is still in `Listing`. -/
theorem C8_navigation_keeps_listing_witness :
    mode listingModel = Mode.Listing ∧
    mode (run forceQuitEnv listingModel
      ((["down", "j", "/", "x", "esc"].take 5).map Msg.KeyMsg)) = Mode.Listing :=
  ⟨by decide,
   (C8_navigation_keeps_listing forceQuitEnv listingModel ["down", "j", "/", "x", "esc"]
      (by decide) (by decide) (by decide) 5).1⟩

end Gazette
